import Mathlib

/-!
Shallow embedding of the data-access core of `streamlit_app.py`
(financial-data submission portal backed by a SQL store).

Modelling conventions:
- Python floats become `ℚ` (exact arithmetic; the spec's properties are
  stated "within floating-point tolerance", which exact rationals satisfy).
- Timestamps become `Nat`.
- The SQL store (`financial_submissions` table) is a `List Row`; the SQL
  queries issued by the program are embedded as Lean functions on that list.
- `st.cache_resource` / `st.cache_data` store the value RETURNED by the
  wrapped function (exceptions raised inside would not be cached, but both
  wrapped functions catch all exceptions and return a fallback value, so
  the fallback is what gets cached).  The cache is passed explicitly.
- The Databricks connection handle carries no information we need, so a
  live handle is `Unit`; `sql.connect` either yields a handle or raises,
  modelled by an `Option Unit` argument.
-/

namespace StreamlitApp

/-- One row of the `financial_submissions` table (the `FinancialSubmission`
entity). -/
structure Row where
  submission_id : String
  business_unit : String
  submission_date : Nat
  revenue : ℚ
  expenses : ℚ
  profit_margin : ℚ
  submitted_by : String
  created_at : Nat
deriving DecidableEq

/-- One row of the `GROUP BY business_unit` summary query result. -/
structure SummaryRow where
  business_unit : String
  submission_count : Nat
  total_revenue : ℚ
  total_expenses : ℚ
  avg_profit_margin : ℚ
deriving DecidableEq

/-- Line 55: `((revenue - expenses) / revenue * 100) if revenue > 0 else 0`. -/
def profitMargin (revenue expenses : ℚ) : ℚ :=
  if revenue > 0 then (revenue - expenses) / revenue * 100 else 0

/-- The options of the business-unit selectbox (line 176). -/
def businessUnitChoices : List String :=
  ["Sales", "Marketing", "Operations", "Engineering", "Finance", "HR"]

/-- Lowercase hex digit for `d % 16` (characters `0`-`9`, `a`-`f`). -/
def hexChar (d : Nat) : Char :=
  if d < 10 then Char.ofNat (48 + d) else Char.ofNat (87 + d)

/-- Big-endian, zero-padded list of `k` lowercase hex digits of `n`. -/
def hexChars : Nat → Nat → List Char
  | 0, _ => []
  | k + 1, n => hexChars k (n / 16) ++ [hexChar (n % 16)]

/-- Model of Python `uuid.uuid4().hex`: 32 lowercase hex chars of the
128-bit value `n`. -/
def uuidHex (n : Nat) : String :=
  String.mk (hexChars 32 n)

/-- Line 54: `f"sub_{uuid.uuid4().hex[:8]}"` — `sub_` followed by the first
8 characters of the uuid's hex form. -/
def submissionId (n : Nat) : String :=
  "sub_" ++ String.mk ((hexChars 32 n).take 8)

/-- Decides whether a character is a lowercase hexadecimal digit. -/
def isLowerHexDigit (c : Char) : Bool :=
  (Char.ofNat 48 ≤ c && c ≤ Char.ofNat 57) || (Char.ofNat 97 ≤ c && c ≤ Char.ofNat 102)

/-- Outcome of the `cursor.execute(INSERT ...)` call: it either succeeds or
raises with a message. -/
inductive InsertOutcome where
  | ok : InsertOutcome
  | err : String → InsertOutcome
deriving DecidableEq

/-- Result of `submit_financial_data`: the store after the call together
with the returned pair `(success, payload)`. -/
structure SubmitResult where
  store : List Row
  success : Bool
  payload : String
deriving DecidableEq

/-- Lines 45-79, `submit_financial_data`.  `conn` is what
`get_databricks_connection()` returned (`none` when it failed), `insert`
the backend's reaction to the INSERT, `uuidVal` the 128-bit value drawn by
`uuid.uuid4()`, `now` the value of `datetime.now()`.  No validation of any
argument is performed by the source. -/
def submit_financial_data (conn : Option Unit) (insert : InsertOutcome)
    (uuidVal now : Nat) (business_unit : String) (revenue expenses : ℚ)
    (submitted_by : String) (store : List Row) : SubmitResult :=
  match conn with
  | none => ⟨store, false, "Connection failed"⟩
  | some _ =>
    match insert with
    | InsertOutcome.ok =>
      ⟨store ++ [⟨submissionId uuidVal, business_unit, now, revenue, expenses,
          profitMargin revenue expenses, submitted_by, now⟩],
        true, submissionId uuidVal⟩
    | InsertOutcome.err msg => ⟨store, false, msg⟩

/-- A `st.cache_resource` / `st.cache_data` cache slot: the stored value
and the time it was stored. -/
structure CacheEntry (α : Type) where
  value : α
  fetchedAt : Nat
deriving DecidableEq

/-- Streamlit cache lookup: a stored entry younger than `ttl` is returned
as is; otherwise the wrapped function runs and its RESULT (whatever it is)
is stored with the current time. -/
def cacheGet {α : Type} (ttl now : Nat) (cache : Option (CacheEntry α))
    (compute : α) : α × Option (CacheEntry α) :=
  match cache with
  | some e =>
    if now - e.fetchedAt < ttl then (e.value, some e)
    else (compute, some ⟨compute, now⟩)
  | none => (compute, some ⟨compute, now⟩)

/-- Lines 27-39, `get_databricks_connection` under `@st.cache_resource`.
`attempt` is the outcome `sql.connect` would produce on this call (`none`:
it raises, and the `except` branch returns `None` after `st.error`).  The
resource cache stores the returned value — a cached `none` included —
and never re-runs the body while an entry exists. -/
def get_databricks_connection (attempt : Option Unit)
    (cache : Option (Option Unit)) : Option Unit × Option (Option Unit) :=
  match cache with
  | some v => (v, some v)
  | none => (attempt, some attempt)

/-- Repeated calls to `get_databricks_connection`, threading the resource
cache; `attempts` lists what `sql.connect` would return on each call. -/
def connCalls (attempts : List (Option Unit)) (cache : Option (Option Unit)) :
    List (Option Unit) × Option (Option Unit) :=
  match attempts with
  | [] => ([], cache)
  | a :: rest =>
    let r := get_databricks_connection a cache
    let rr := connCalls rest r.2
    (r.1 :: rr.1, rr.2)

/-- Descending order on a sort key: `a` comes before `b` when
`key b ≤ key a` (models SQL `ORDER BY key DESC`). -/
def keyDesc {α β : Type} [LinearOrder β] (key : α → β) : α → α → Prop :=
  fun a b => key b ≤ key a

instance {α β : Type} [LinearOrder β] (key : α → β) : DecidableRel (keyDesc key) :=
  fun a b => inferInstanceAs (Decidable (key b ≤ key a))

instance {α β : Type} [LinearOrder β] (key : α → β) : IsTotal α (keyDesc key) :=
  ⟨fun a b => le_total (key b) (key a)⟩

instance {α β : Type} [LinearOrder β] (key : α → β) : IsTrans α (keyDesc key) :=
  ⟨fun _ _ _ h1 h2 => le_trans h2 h1⟩

/-- Lines 90-94: `SELECT * FROM financial_submissions ORDER BY
submission_date DESC LIMIT 100`. -/
def queryRecent (store : List Row) : List Row :=
  (store.insertionSort (keyDesc (fun r => r.submission_date))).take 100

/-- Body of `fetch_all_data` (lines 82-113): empty result when the
connection is unavailable or the query raises (the exception is caught,
`st.error` shown, and an empty DataFrame returned); otherwise the rows the
backend returns for the recent-rows query. -/
def fetch_all_data_body (conn : Option Unit) (queryFail : Option String)
    (store : List Row) : List Row :=
  match conn with
  | none => []
  | some _ =>
    match queryFail with
    | some _ => []
    | none => queryRecent store

/-- `fetch_all_data` under `@st.cache_data(ttl=30)`: the body's returned
value — an empty DataFrame on failure included — is cached for 30s. -/
def fetch_all_data (now : Nat) (conn : Option Unit) (queryFail : Option String)
    (store : List Row) (cache : Option (CacheEntry (List Row))) :
    List Row × Option (CacheEntry (List Row)) :=
  cacheGet 30 now cache (fetch_all_data_body conn queryFail store)

/-- Rows of the store belonging to business unit `u` (the group formed by
`GROUP BY business_unit`). -/
def groupRows (store : List Row) (u : String) : List Row :=
  store.filter (fun r => r.business_unit == u)

/-- The distinct business units of the store in first-encounter order (the
set of groups produced by `GROUP BY business_unit`). -/
def uniqueUnits : List Row → List String
  | [] => []
  | r :: rs => r.business_unit :: (uniqueUnits rs).filter (fun u => !(u == r.business_unit))

/-- The aggregates of lines 125-130 for one group: `COUNT(*)`,
`SUM(revenue)`, `SUM(expenses)`, `AVG(profit_margin)` (SQL `AVG` is the
sum of the stored column values divided by the row count). -/
def summaryFor (store : List Row) (u : String) : SummaryRow :=
  ⟨u, (groupRows store u).length,
    ((groupRows store u).map (fun r => r.revenue)).sum,
    ((groupRows store u).map (fun r => r.expenses)).sum,
    ((groupRows store u).map (fun r => r.profit_margin)).sum / ((groupRows store u).length : ℚ)⟩

/-- The grouped aggregation of lines 124-132, before ordering. -/
def summarize (store : List Row) : List SummaryRow :=
  (uniqueUnits store).map (summaryFor store)

/-- Lines 124-134: the summary query with `ORDER BY total_revenue DESC`.
The query names no secondary sort key, so the order among groups with
equal `total_revenue` is not specified by the source; this model resolves
such ties stably, keeping the groups' first-encounter order. -/
def querySummary (store : List Row) : List SummaryRow :=
  (summarize store).insertionSort (keyDesc (fun s => s.total_revenue))

/-- Body of `get_summary_stats` (lines 116-155): empty result when the
connection is unavailable or the query raises; otherwise the summary rows. -/
def get_summary_stats_body (conn : Option Unit) (queryFail : Option String)
    (store : List Row) : List SummaryRow :=
  match conn with
  | none => []
  | some _ =>
    match queryFail with
    | some _ => []
    | none => querySummary store

/-- `get_summary_stats` under `@st.cache_data(ttl=30)`. -/
def get_summary_stats (now : Nat) (conn : Option Unit) (queryFail : Option String)
    (store : List Row) (cache : Option (CacheEntry (List SummaryRow))) :
    List SummaryRow × Option (CacheEntry (List SummaryRow)) :=
  cacheGet 30 now cache (get_summary_stats_body conn queryFail store)

/-- The two `st.cache_data` entries of the app: the recent-rows entry of
`fetch_all_data` and the summary entry of `get_summary_stats`. -/
structure DataCaches where
  recent : Option (CacheEntry (List Row))
  summary : Option (CacheEntry (List SummaryRow))
deriving DecidableEq

/-- Result of the form-submit handler: store, both data caches, and the
`(success, message)` the user sees. -/
structure FormOutcome where
  store : List Row
  caches : DataCaches
  success : Bool
  message : String
deriving DecidableEq

/-- Lines 208-221 of `show_data_entry_form`: run `submit_financial_data`;
on success, `st.cache_data.clear()` drops BOTH data-cache entries (and the
app reruns — no fetch happens inside the handler itself); on failure the
caches are left untouched. -/
def show_data_entry_form_submit (conn : Option Unit) (insert : InsertOutcome)
    (uuidVal now : Nat) (business_unit : String) (revenue expenses : ℚ)
    (submitted_by : String) (store : List Row) (caches : DataCaches) : FormOutcome :=
  let r := submit_financial_data conn insert uuidVal now business_unit revenue
    expenses submitted_by store
  if r.success then ⟨r.store, ⟨none, none⟩, true, r.payload⟩
  else ⟨r.store, caches, false, r.payload⟩

/-- Modelled from the spec: the arithmetic mean of the per-row derived
`profit_margin` values of one business unit's rows (what §4.4 says
`avg_profit_margin` must be). -/
def pmMeanSpec (store : List Row) (u : String) : ℚ :=
  ((groupRows store u).map (fun r => r.profit_margin)).sum / ((groupRows store u).length : ℚ)

/-- Concrete row used to exhibit cache behaviour. -/
def c4row : Row :=
  ⟨"sub_00000000", "Sales", 1, 100, 25, 75, "Alice", 1⟩

/-- Concrete rows exhibiting a `total_revenue` tie between two units. -/
def c7rowA : Row :=
  ⟨"sub_aaaaaaaa", "Sales", 1, 100, 40, 60, "Alice", 1⟩

/-- Second row of the tie example; its unit name sorts before `Sales`. -/
def c7rowB : Row :=
  ⟨"sub_bbbbbbbb", "HR", 2, 100, 70, 30, "Bob", 2⟩

/-! Helper lemmas -/

theorem hexChar_isLowerHex (d : Nat) (h : d < 16) : isLowerHexDigit (hexChar d) = true := by
  interval_cases d <;> decide

theorem hexChars_length (k : Nat) : ∀ n : Nat, (hexChars k n).length = k := by
  induction k with
  | zero => intro n; rfl
  | succ k ih =>
    intro n
    simp [hexChars, ih]

theorem hexChars_isLowerHex (k : Nat) :
    ∀ (n : Nat) (c : Char), c ∈ hexChars k n → isLowerHexDigit c = true := by
  induction k with
  | zero => intro n c hc; simp [hexChars] at hc
  | succ k ih =>
    intro n c hc
    simp only [hexChars, List.mem_append, List.mem_singleton] at hc
    rcases hc with hc | hc
    · exact ih _ _ hc
    · subst hc
      exact hexChar_isLowerHex _ (Nat.mod_lt _ (by decide))

theorem submissionId_data (n : Nat) :
    (submissionId n).data = ['s', 'u', 'b', '_'] ++ (hexChars 32 n).take 8 := rfl

theorem take4_subPrefix (l : List Char) :
    (['s', 'u', 'b', '_'] ++ l).take 4 = ['s', 'u', 'b', '_'] := rfl

theorem drop4_subPrefix (l : List Char) :
    (['s', 'u', 'b', '_'] ++ l).drop 4 = l := rfl

theorem sum_map_filter_split {α : Type} (f : α → ℚ) (p : α → Bool) (l : List α) :
    ((l.filter p).map f).sum + ((l.filter (fun a => !p a)).map f).sum = (l.map f).sum := by
  induction l with
  | nil => simp
  | cons a t ih =>
    cases h : p a <;> simp [List.filter_cons, h, ← ih] <;> ring

theorem mem_uniqueUnits (store : List Row) (r : Row) (h : r ∈ store) :
    r.business_unit ∈ uniqueUnits store := by
  induction store with
  | nil => simp at h
  | cons s t ih =>
    rcases List.mem_cons.mp h with rfl | h
    · exact List.mem_cons_self _ _
    · by_cases hu : r.business_unit = s.business_unit
      · rw [hu]; exact List.mem_cons_self _ _
      · refine List.mem_cons_of_mem _ (List.mem_filter.mpr ⟨ih h, ?_⟩)
        simp [hu]

theorem nodup_uniqueUnits (store : List Row) : (uniqueUnits store).Nodup := by
  induction store with
  | nil => exact List.nodup_nil
  | cons s t ih =>
    refine List.nodup_cons.mpr ⟨?_, ih.filter _⟩
    intro hmem
    have := (List.mem_filter.mp hmem).2
    simp at this

theorem sum_over_units (f : Row → ℚ) :
    ∀ (us : List String) (l : List Row), us.Nodup →
      (∀ r ∈ l, r.business_unit ∈ us) →
      (us.map (fun u => ((l.filter (fun r => r.business_unit == u)).map f).sum)).sum
        = (l.map f).sum := by
  intro us
  induction us with
  | nil =>
    intro l _ hcov
    cases l with
    | nil => simp
    | cons a t => exact absurd (hcov a (List.mem_cons_self _ _)) (List.not_mem_nil _)
  | cons u us ih =>
    intro l hnd hcov
    have hnotmem : u ∉ us := (List.nodup_cons.mp hnd).1
    have hnd2 : us.Nodup := (List.nodup_cons.mp hnd).2
    have hfilter : ∀ u2 ∈ us,
        (l.filter (fun r => !(r.business_unit == u))).filter
          (fun r => r.business_unit == u2)
          = l.filter (fun r => r.business_unit == u2) := by
      intro u2 hu2
      have hne : u2 ≠ u := by rintro rfl; exact hnotmem hu2
      rw [List.filter_filter]
      apply List.filter_congr
      intro r _
      cases hr : r.business_unit == u2 with
      | false => simp [hr]
      | true =>
        have : r.business_unit = u2 := by simpa using hr
        simp [hr, this, hne]
    have hcov2 : ∀ r ∈ l.filter (fun r => !(r.business_unit == u)),
        r.business_unit ∈ us := by
      intro r hr
      have hmem := (List.mem_filter.mp hr).1
      have hneq := (List.mem_filter.mp hr).2
      have : r.business_unit ≠ u := by simpa using hneq
      rcases List.mem_cons.mp (hcov r hmem) with h | h
      · exact absurd h this
      · exact h
    have hmap : us.map (fun u2 => ((l.filter (fun r => r.business_unit == u2)).map f).sum)
        = us.map (fun u2 => (((l.filter (fun r => !(r.business_unit == u))).filter
            (fun r => r.business_unit == u2)).map f).sum) := by
      apply List.map_congr_left
      intro u2 hu2
      rw [hfilter u2 hu2]
    calc (((u :: us).map
          (fun u2 => ((l.filter (fun r => r.business_unit == u2)).map f).sum)).sum)
        = ((l.filter (fun r => r.business_unit == u)).map f).sum
          + (us.map (fun u2 => ((l.filter (fun r => r.business_unit == u2)).map f).sum)).sum := by
          simp
      _ = ((l.filter (fun r => r.business_unit == u)).map f).sum
          + ((l.filter (fun r => !(r.business_unit == u))).map f).sum := by
          rw [hmap, ih _ hnd2 hcov2]
      _ = (l.map f).sum := sum_map_filter_split f _ l

theorem summarize_sum_revenue (store : List Row) :
    ((summarize store).map (fun s => s.total_revenue)).sum
      = (store.map (fun r => r.revenue)).sum := by
  unfold summarize
  rw [List.map_map]
  exact sum_over_units (fun r => r.revenue) (uniqueUnits store) store
    (nodup_uniqueUnits store) (fun r hr => mem_uniqueUnits store r hr)

theorem summarize_sum_expenses (store : List Row) :
    ((summarize store).map (fun s => s.total_expenses)).sum
      = (store.map (fun r => r.expenses)).sum := by
  unfold summarize
  rw [List.map_map]
  exact sum_over_units (fun r => r.expenses) (uniqueUnits store) store
    (nodup_uniqueUnits store) (fun r hr => mem_uniqueUnits store r hr)

theorem querySummary_perm (store : List Row) :
    List.Perm (querySummary store) (summarize store) :=
  List.perm_insertionSort _ _

theorem querySummary_sum_map (g : SummaryRow → ℚ) (store : List Row) :
    ((querySummary store).map g).sum = ((summarize store).map g).sum :=
  ((querySummary_perm store).map g).sum_eq

theorem queryRecent_sorted (store : List Row) :
    (queryRecent store).Pairwise (fun a b => b.submission_date ≤ a.submission_date) := by
  have hs : (store.insertionSort (keyDesc (fun r => r.submission_date))).Pairwise
      (keyDesc (fun r : Row => r.submission_date)) :=
    List.sorted_insertionSort _ _
  exact hs.sublist (List.take_sublist _ _)

theorem queryRecent_length (store : List Row) : (queryRecent store).length ≤ 100 := by
  unfold queryRecent
  calc (List.take 100 _).length ≤ 100 := List.length_take_le _ _

theorem querySummary_sorted (store : List Row) :
    (querySummary store).Pairwise (fun a b => b.total_revenue ≤ a.total_revenue) := by
  have hs : ((summarize store).insertionSort (keyDesc (fun s => s.total_revenue))).Pairwise
      (keyDesc (fun s : SummaryRow => s.total_revenue)) :=
    List.sorted_insertionSort _ _
  exact hs

/-! Claim theorems -/

/-- Claim C1: for every submission the derived `profit_margin` equals
`(revenue - expenses) / revenue * 100` when `revenue > 0` and `0` when
`revenue == 0`, and the row written by `submit_financial_data` carries
exactly that derived value — the caller never supplies it. -/
theorem C1_profit_margin_derived (revenue expenses : ℚ) :
    (revenue > 0 → profitMargin revenue expenses = (revenue - expenses) / revenue * 100) ∧
    (revenue = 0 → profitMargin revenue expenses = 0) ∧
    (∀ (uuidVal now : Nat) (bu submitter : String) (store : List Row),
      ((submit_financial_data (some ()) InsertOutcome.ok uuidVal now bu revenue expenses
          submitter store).store.map (fun r => r.profit_margin))
        = store.map (fun r => r.profit_margin) ++ [profitMargin revenue expenses]) := by
  refine ⟨fun h => ?_, fun h => ?_, fun uuidVal now bu submitter store => ?_⟩
  · simp [profitMargin, h]
  · simp [profitMargin, h]
  · simp [submit_financial_data]

/-- Witness for C1 at `revenue = 200, expenses = 50` and at
`revenue = 0, expenses = 7`. -/
theorem C1_profit_margin_derived_witness :
    profitMargin 200 50 = (200 - 50) / 200 * 100 ∧ profitMargin 0 7 = 0 :=
  ⟨(C1_profit_margin_derived 200 50).1 (by norm_num),
    (C1_profit_margin_derived 0 7).2.1 rfl⟩

/-- Counterexample to claim C2: `submit_financial_data` with
`revenue = -10` (and, separately, with the out-of-enum unit "Legal")
succeeds and writes a row — no `ValidationError`, no rejection. -/
theorem C2_validation_counterexample :
    (submit_financial_data (some ()) InsertOutcome.ok 0 0 "Sales" (-10) 5 "Alice" []).success
      = true ∧
    (submit_financial_data (some ()) InsertOutcome.ok 0 0 "Sales" (-10) 5 "Alice" []).store.length
      = 1 ∧
    (submit_financial_data (some ()) InsertOutcome.ok 0 0 "Legal" 10 5 "Alice" []).success
      = true ∧
    "Legal" ∉ businessUnitChoices := by
  refine ⟨rfl, rfl, rfl, by decide⟩

/-- Claim C2 as amended: `submit_financial_data` performs no validation at
all — even for negative revenue/expenses or a business unit outside the
selectbox's fixed options, the call succeeds (given a working backend),
the row is written, and the form handler clears both read caches.  Input
ranges are constrained only by the UI widgets, not by this layer. -/
theorem C2_amended_no_validation (bu : String) (revenue expenses : ℚ)
    (submitter : String) (uuidVal now : Nat) (store : List Row) (caches : DataCaches)
    (_h : revenue < 0 ∨ expenses < 0 ∨ bu ∉ businessUnitChoices) :
    (submit_financial_data (some ()) InsertOutcome.ok uuidVal now bu revenue expenses
        submitter store).success = true ∧
    (submit_financial_data (some ()) InsertOutcome.ok uuidVal now bu revenue expenses
        submitter store).store.length = store.length + 1 ∧
    (show_data_entry_form_submit (some ()) InsertOutcome.ok uuidVal now bu revenue expenses
        submitter store caches).caches = ⟨none, none⟩ := by
  exact ⟨rfl, by simp [submit_financial_data], rfl⟩

/-- Witness for the amended C2 at `revenue = -10`. -/
theorem C2_amended_no_validation_witness :
    (submit_financial_data (some ()) InsertOutcome.ok 3 1 "Sales" (-10) 5 "Bob"
        [c4row]).success = true ∧
    (submit_financial_data (some ()) InsertOutcome.ok 3 1 "Sales" (-10) 5 "Bob"
        [c4row]).store.length = [c4row].length + 1 ∧
    (show_data_entry_form_submit (some ()) InsertOutcome.ok 3 1 "Sales" (-10) 5 "Bob"
        [c4row] ⟨none, none⟩).caches = ⟨none, none⟩ :=
  C2_amended_no_validation "Sales" (-10) 5 "Bob" 3 1 [c4row] ⟨none, none⟩
    (Or.inl (by norm_num))

/-- Counterexample to claim C5: after one failed connection attempt, a
later call whose `sql.connect` WOULD succeed still returns `none` — the
failed handle was cached by `st.cache_resource` and no retry happens. -/
theorem C5_connection_counterexample :
    (get_databricks_connection (some ())
      ((get_databricks_connection none none).2)).1 = none := rfl

/-- Claim C5 as amended: when connection establishment fails the function
returns `None` after displaying the error, and `st.cache_resource` caches
that `None`; every subsequent call returns the cached `None` without
re-attempting connection establishment, until the resource cache is
cleared externally. -/
theorem C5_amended_failure_cached (attempts : List (Option Unit)) :
    (get_databricks_connection none none).2 = some none ∧
    (connCalls attempts (some none)).1 = attempts.map (fun _ => none) ∧
    (connCalls attempts (some none)).2 = some none := by
  have h : ∀ l : List (Option Unit),
      (connCalls l (some none)).1 = l.map (fun _ => none) ∧
      (connCalls l (some none)).2 = some none := by
    intro l
    induction l with
    | nil => exact ⟨rfl, rfl⟩
    | cons a t ih => simpa [connCalls, get_databricks_connection] using ih
  exact ⟨rfl, (h attempts).1, (h attempts).2⟩

/-- Claim C6: for every store contents (and every connection/query
outcome), `fetch_all_data` produces at most 100 rows, sorted by
`submission_date` descending. -/
theorem C6_recent_limit_and_order (conn : Option Unit) (queryFail : Option String)
    (store : List Row) :
    (fetch_all_data_body conn queryFail store).length ≤ 100 ∧
    (fetch_all_data_body conn queryFail store).Pairwise
      (fun a b => b.submission_date ≤ a.submission_date) := by
  cases conn with
  | none => simp [fetch_all_data_body]
  | some u =>
    cases queryFail with
    | some msg => simp [fetch_all_data_body]
    | none => exact ⟨queryRecent_length store, queryRecent_sorted store⟩

/-- Claim C9: every generated `submission_id` is `sub_` followed by
exactly 8 lowercase hexadecimal characters, and a successful
`submit_financial_data` returns exactly that id. -/
theorem C9_submission_id_format (uuidVal now : Nat) (bu : String)
    (revenue expenses : ℚ) (submitter : String) (store : List Row) :
    (submissionId uuidVal).data.take 4 = ['s', 'u', 'b', '_'] ∧
    ((submissionId uuidVal).data.drop 4).length = 8 ∧
    ((submissionId uuidVal).data.drop 4).all isLowerHexDigit = true ∧
    (submit_financial_data (some ()) InsertOutcome.ok uuidVal now bu revenue expenses
        submitter store).payload = submissionId uuidVal := by
  have hdata := submissionId_data uuidVal
  have hlen : ((hexChars 32 uuidVal).take 8).length = 8 := by
    rw [List.length_take, hexChars_length]
    decide
  refine ⟨?_, ?_, ?_, rfl⟩
  · rw [hdata, take4_subPrefix]
  · rw [hdata, drop4_subPrefix]
    exact hlen
  · rw [hdata, drop4_subPrefix, List.all_eq_true]
    intro c hc
    exact hexChars_isLowerHex 32 uuidVal c (List.mem_of_mem_take hc)

/-- Claim C10: `submit_financial_data` always returns a `(success,
payload)` pair (all exception paths are caught); on success the payload is
the generated submission id, and on failure it is an error-message string
— either the fixed connection message or the insert error's message — so
the error kinds share one `String` payload type. -/
theorem C10_submit_total_pair (conn : Option Unit) (insert : InsertOutcome)
    (uuidVal now : Nat) (bu : String) (revenue expenses : ℚ) (submitter : String)
    (store : List Row) :
    ((submit_financial_data conn insert uuidVal now bu revenue expenses submitter
        store).success = true →
      (submit_financial_data conn insert uuidVal now bu revenue expenses submitter
        store).payload = submissionId uuidVal) ∧
    ((submit_financial_data conn insert uuidVal now bu revenue expenses submitter
        store).success = false →
      (submit_financial_data conn insert uuidVal now bu revenue expenses submitter
        store).payload = "Connection failed"
      ∨ ∃ msg, insert = InsertOutcome.err msg ∧
          (submit_financial_data conn insert uuidVal now bu revenue expenses submitter
            store).payload = msg) := by
  cases conn with
  | none => exact ⟨fun h => by simp [submit_financial_data] at h, fun _ => Or.inl rfl⟩
  | some u =>
    cases insert with
    | ok => exact ⟨fun _ => rfl, fun h => by simp [submit_financial_data] at h⟩
    | err msg =>
      exact ⟨fun h => by simp [submit_financial_data] at h,
        fun _ => Or.inr ⟨msg, rfl, rfl⟩⟩

/-- Witness for C10: the success branch at a working backend and the
failure branch at an unavailable connection. -/
theorem C10_submit_total_pair_witness :
    (submit_financial_data (some ()) InsertOutcome.ok 5 2 "Sales" 100 25 "Alice"
        []).payload = submissionId 5 ∧
    ((submit_financial_data none InsertOutcome.ok 5 2 "Sales" 100 25 "Alice"
        []).payload = "Connection failed"
      ∨ ∃ msg, InsertOutcome.ok = InsertOutcome.err msg ∧
          (submit_financial_data none InsertOutcome.ok 5 2 "Sales" 100 25 "Alice"
            []).payload = msg) :=
  ⟨(C10_submit_total_pair (some ()) InsertOutcome.ok 5 2 "Sales" 100 25 "Alice" []).1 rfl,
    (C10_submit_total_pair none InsertOutcome.ok 5 2 "Sales" 100 25 "Alice" []).2 rfl⟩

/-- Claim C3: every successful submit through the form handler leaves BOTH
`st.cache_data` entries cleared (invalidated, not eagerly refreshed), so
the next `fetch_all_data` / `get_summary_stats` misses the cache and
recomputes from the post-write store. -/
theorem C3_success_invalidates_both_caches (conn : Option Unit) (insert : InsertOutcome)
    (uuidVal now now2 : Nat) (bu : String) (revenue expenses : ℚ) (submitter : String)
    (store : List Row) (caches : DataCaches)
    (h : (show_data_entry_form_submit conn insert uuidVal now bu revenue expenses
        submitter store caches).success = true) :
    (show_data_entry_form_submit conn insert uuidVal now bu revenue expenses submitter
        store caches).caches = ⟨none, none⟩ ∧
    (fetch_all_data now2 (some ()) none
        (show_data_entry_form_submit conn insert uuidVal now bu revenue expenses
          submitter store caches).store
        (show_data_entry_form_submit conn insert uuidVal now bu revenue expenses
          submitter store caches).caches.recent).1
      = queryRecent (show_data_entry_form_submit conn insert uuidVal now bu revenue
          expenses submitter store caches).store ∧
    (get_summary_stats now2 (some ()) none
        (show_data_entry_form_submit conn insert uuidVal now bu revenue expenses
          submitter store caches).store
        (show_data_entry_form_submit conn insert uuidVal now bu revenue expenses
          submitter store caches).caches.summary).1
      = querySummary (show_data_entry_form_submit conn insert uuidVal now bu revenue
          expenses submitter store caches).store := by
  cases hs : (submit_financial_data conn insert uuidVal now bu revenue expenses
      submitter store).success with
  | false =>
    exfalso
    simp [show_data_entry_form_submit, hs] at h
  | true =>
    simp [show_data_entry_form_submit, hs, fetch_all_data, get_summary_stats, cacheGet,
      fetch_all_data_body, get_summary_stats_body]

/-- Witness for C3: a concrete successful submit with both caches
initially populated. -/
theorem C3_success_invalidates_both_caches_witness :
    (show_data_entry_form_submit (some ()) InsertOutcome.ok 7 1 "Sales" 100 25 "Alice"
        [] ⟨some ⟨[c4row], 0⟩, some ⟨[], 0⟩⟩).caches = ⟨none, none⟩ ∧
    (fetch_all_data 2 (some ()) none
        (show_data_entry_form_submit (some ()) InsertOutcome.ok 7 1 "Sales" 100 25
          "Alice" [] ⟨some ⟨[c4row], 0⟩, some ⟨[], 0⟩⟩).store
        (show_data_entry_form_submit (some ()) InsertOutcome.ok 7 1 "Sales" 100 25
          "Alice" [] ⟨some ⟨[c4row], 0⟩, some ⟨[], 0⟩⟩).caches.recent).1
      = queryRecent (show_data_entry_form_submit (some ()) InsertOutcome.ok 7 1 "Sales"
          100 25 "Alice" [] ⟨some ⟨[c4row], 0⟩, some ⟨[], 0⟩⟩).store ∧
    (get_summary_stats 2 (some ()) none
        (show_data_entry_form_submit (some ()) InsertOutcome.ok 7 1 "Sales" 100 25
          "Alice" [] ⟨some ⟨[c4row], 0⟩, some ⟨[], 0⟩⟩).store
        (show_data_entry_form_submit (some ()) InsertOutcome.ok 7 1 "Sales" 100 25
          "Alice" [] ⟨some ⟨[c4row], 0⟩, some ⟨[], 0⟩⟩).caches.summary).1
      = querySummary (show_data_entry_form_submit (some ()) InsertOutcome.ok 7 1 "Sales"
          100 25 "Alice" [] ⟨some ⟨[c4row], 0⟩, some ⟨[], 0⟩⟩).store :=
  C3_success_invalidates_both_caches (some ()) InsertOutcome.ok 7 1 2 "Sales" 100 25
    "Alice" [] ⟨some ⟨[c4row], 0⟩, some ⟨[], 0⟩⟩ rfl

/-- Counterexample to claim C4: a failing fetch at time 0 returns an empty
result which IS cached; a retry at time 10 — when the backend works and a
fresh query would return the row — still returns the cached empty result. -/
theorem C4_failure_cached_counterexample :
    (fetch_all_data 0 (some ()) (some "boom") [c4row] none).1 = [] ∧
    (fetch_all_data 10 (some ()) none [c4row]
      (fetch_all_data 0 (some ()) (some "boom") [c4row] none).2).1 = [] ∧
    queryRecent [c4row] = [c4row] := by
  refine ⟨rfl, rfl, by decide⟩

/-- Claim C4 as amended: on a failing fetch (for either read path) the
error is only displayed via `st.error` and an empty result is returned to
the caller; because the exception is caught inside the `st.cache_data`
wrapped body, that empty result IS cached, and every call within the 30s
TTL window returns it without contacting the backend. -/
theorem C4_amended_failure_cached (now now2 : Nat) (msg : String)
    (conn2 : Option Unit) (queryFail2 : Option String) (store store2 : List Row)
    (h : now2 - now < 30) :
    (fetch_all_data now (some ()) (some msg) store none).1 = [] ∧
    (fetch_all_data now2 conn2 queryFail2 store2
      (fetch_all_data now (some ()) (some msg) store none).2).1 = [] ∧
    (get_summary_stats now (some ()) (some msg) store none).1 = [] ∧
    (get_summary_stats now2 conn2 queryFail2 store2
      (get_summary_stats now (some ()) (some msg) store none).2).1 = [] := by
  simp [fetch_all_data, get_summary_stats, cacheGet, fetch_all_data_body,
    get_summary_stats_body, h]

/-- Witness for the amended C4 at times 0 and 10. -/
theorem C4_amended_failure_cached_witness :
    (fetch_all_data 0 (some ()) (some "boom") [c4row] none).1 = [] ∧
    (fetch_all_data 10 (some ()) none [c4row]
      (fetch_all_data 0 (some ()) (some "boom") [c4row] none).2).1 = [] ∧
    (get_summary_stats 0 (some ()) (some "boom") [c4row] none).1 = [] ∧
    (get_summary_stats 10 (some ()) none [c4row]
      (get_summary_stats 0 (some ()) (some "boom") [c4row] none).2).1 = [] :=
  C4_amended_failure_cached 0 10 "boom" (some ()) none [c4row] [c4row] (by decide)

/-- Counterexample to claim C7: two units tie at `total_revenue = 100`;
the summary comes back with "Sales" before "HR" although "HR" sorts first
by name — the query has no tie-breaking sort key. -/
theorem C7_tie_order_counterexample :
    (querySummary [c7rowA, c7rowB]).map (fun s => s.business_unit) = ["Sales", "HR"] ∧
    (querySummary [c7rowA, c7rowB]).map (fun s => s.total_revenue) = [100, 100] ∧
    "HR" < "Sales" := by
  have hg1 : groupRows [c7rowA, c7rowB] "Sales" = [c7rowA] := rfl
  have hg2 : groupRows [c7rowA, c7rowB] "HR" = [c7rowB] := rfl
  have hA : (summaryFor [c7rowA, c7rowB] "Sales").total_revenue = 100 := by
    simp only [summaryFor, hg1]
    norm_num [c7rowA]
  have hB : (summaryFor [c7rowA, c7rowB] "HR").total_revenue = 100 := by
    simp only [summaryFor, hg2]
    norm_num [c7rowB]
  have hu : uniqueUnits [c7rowA, c7rowB] = ["Sales", "HR"] := rfl
  have hsum : summarize [c7rowA, c7rowB]
      = [summaryFor [c7rowA, c7rowB] "Sales", summaryFor [c7rowA, c7rowB] "HR"] := by
    simp only [summarize, hu, List.map_cons, List.map_nil]
  have hr : keyDesc (fun s : SummaryRow => s.total_revenue)
      (summaryFor [c7rowA, c7rowB] "Sales") (summaryFor [c7rowA, c7rowB] "HR") := by
    show (summaryFor [c7rowA, c7rowB] "HR").total_revenue
      ≤ (summaryFor [c7rowA, c7rowB] "Sales").total_revenue
    rw [hA, hB]
  have hsort : querySummary [c7rowA, c7rowB]
      = [summaryFor [c7rowA, c7rowB] "Sales", summaryFor [c7rowA, c7rowB] "HR"] := by
    rw [querySummary, hsum]
    simp only [List.insertionSort, List.orderedInsert]
    rw [if_pos hr]
  refine ⟨?_, ?_, ?_⟩
  · rw [hsort]
    rfl
  · rw [hsort, List.map_cons, List.map_cons, List.map_nil, hA, hB]
  · rw [String.lt_iff_toList_lt]
    decide

/-- Claim C7 as amended: the summary rows are ordered by `total_revenue`
descending, but the query names no secondary sort key, so the relative
order of groups with equal `total_revenue` is not determined by the
business-unit name. -/
theorem C7_amended_sorted_by_revenue (store : List Row) :
    (querySummary store).Pairwise (fun a b => b.total_revenue ≤ a.total_revenue) :=
  querySummary_sorted store

/-- Claim C8: the per-unit summary is a grouping homomorphism — summary
`total_revenue` values sum to the sum of all raw revenues, likewise for
expenses — and each row's `avg_profit_margin` is the arithmetic mean of
that unit's stored per-row `profit_margin` values (`AVG` over the stored
column, not recomputed from the summed revenue and expenses). -/
theorem C8_summary_grouping_homomorphism (store : List Row) :
    ((querySummary store).map (fun s => s.total_revenue)).sum
      = (store.map (fun r => r.revenue)).sum ∧
    ((querySummary store).map (fun s => s.total_expenses)).sum
      = (store.map (fun r => r.expenses)).sum ∧
    (querySummary store).all
      (fun s => s.avg_profit_margin == pmMeanSpec store s.business_unit) = true := by
  refine ⟨?_, ?_, ?_⟩
  · rw [querySummary_sum_map, summarize_sum_revenue]
  · rw [querySummary_sum_map, summarize_sum_expenses]
  · rw [List.all_eq_true]
    intro s hs
    have hmem : s ∈ summarize store := ((querySummary_perm store).mem_iff).mp hs
    rcases List.mem_map.mp hmem with ⟨u, _, rfl⟩
    simp [summaryFor, pmMeanSpec]

end StreamlitApp
